import Mathlib

/-
  Verification of the build helper script of the nvim-repolink repository
  (src/build.py). The script is embedded shallowly: filesystem paths are
  lists of components (os.path.join concatenates components), the
  filesystem is a finite record of existing files and directories, the
  external subprocess is an opaque outcome parameter (it either launched
  and exited with some code, or failed to launch with some message), and
  the printed output and executed commands are collected in result records.
-/

namespace BuildPy

/-- A filesystem path, as the list of its components; `os.path.join`
concatenates components. -/
abbrev Path := List String

/-- The host platform, as reported by Python's `sys.platform`: one of the
three recognized identifiers, or any other string. -/
inductive Platform where
  | linux
  | win32
  | darwin
  | other (s : String)
deriving DecidableEq, Repr

/-- The module-level `if sys.platform == ...` chain of build.py (lines 5-16):
for a recognized platform it yields the pair `(LIB, OUT)` of the expected
toolchain artifact filename and the installed filename; for any other
platform the script prints `Unsupported platform` and exits with code 1,
modelled as `none` here and handled in `program`. -/
def resolve : Platform → Option (String × String)
  | .linux => some ("libnvim_repolink.so", "nvim_repolink.so")
  | .win32 => some ("nvim_repolink.dll", "nvim_repolink.dll")
  | .darwin => some ("libnvim_repolink.dylib", "nvim_repolink.so")
  | .other _ => none

/-- `LUA = 'lua'` (build.py line 18), the destination directory. -/
def LUA : Path := ["lua"]

/-- `OUT = os.path.join(LUA, OUT)` (build.py line 19): the fixed
destination path of the installed artifact, given the installed filename. -/
def OUTpath (outName : String) : Path := LUA ++ [outName]

/-- A filesystem state: the set of existing regular files and the set of
existing directories, each as a list of paths. -/
structure FS where
  files : List Path
  dirs : List Path
deriving DecidableEq, Repr

/-- Whether a regular file exists at path `p`. -/
def FS.hasFile (fs : FS) (p : Path) : Bool := decide (p ∈ fs.files)

/-- Whether a directory exists at path `p`. -/
def FS.hasDir (fs : FS) (p : Path) : Bool := decide (p ∈ fs.dirs)

/-- The filesystem errors (`OSError` subclasses) the script can encounter:
`FileExistsError` from `os.mkdir`, `FileNotFoundError` from `os.rename` or
`shutil.rmtree`, and e.g. `PermissionError` carrying a message. -/
inductive OSErr where
  | fileExists
  | fileNotFound
  | permission (msg : String)
deriving DecidableEq, Repr

/-- The string printed for an error by `print(f'{e}')`. -/
def OSErr.message : OSErr → String
  | .fileExists => "FileExistsError"
  | .fileNotFound => "FileNotFoundError"
  | .permission m => m

/-- `d.isPrefixOf p` on path components: `p` is `d` itself or lies below
the directory `d`. -/
def underDir : Path → Path → Bool
  | [], _ => true
  | _ :: _, [] => false
  | a :: as, b :: bs => decide (a = b) && underDir as bs

/-- The parent directory of a path (all components but the last). -/
def parentDir : Path → Path
  | [] => []
  | [_] => []
  | a :: rest => a :: parentDir rest

/-- `os.mkdir`: creates directory `d`, failing with `FileExistsError` when
it already exists. -/
def os_mkdir (fs : FS) (d : Path) : Except OSErr FS :=
  if fs.hasDir d then .error .fileExists
  else .ok { fs with dirs := d :: fs.dirs }

/-- `os.rename src dst`: fails with `FileNotFoundError` when no file exists
at `src` or the destination's parent directory is missing; otherwise moves
the file from `src` to `dst` (the entry at `src` disappears, one at `dst`
appears). -/
def os_rename (fs : FS) (src dst : Path) : Except OSErr FS :=
  if fs.hasFile src then
    if parentDir dst = [] ∨ fs.hasDir (parentDir dst) then
      .ok { fs with files := dst :: fs.files.filter (fun q => decide (q ≠ src)) }
    else .error .fileNotFound
  else .error .fileNotFound

/-- `shutil.rmtree d`: removes the directory `d` and everything beneath it,
failing with `FileNotFoundError` when `d` does not exist. The `inj`
parameter injects an arbitrary other exception (e.g. `PermissionError`) to
model environmental failures of the removal. -/
def shutil_rmtree (fs : FS) (d : Path) (inj : Option OSErr) : Except OSErr FS :=
  match inj with
  | some e => .error e
  | none =>
    if fs.hasDir d then
      .ok { files := fs.files.filter (fun q => !underDir d q),
            dirs := fs.dirs.filter (fun q => !underDir d q) }
    else .error .fileNotFound

/-- How the external subprocess behaved: it launched (and exited with some
code, which the script never inspects), or `subprocess.Popen` raised with
some message. -/
inductive CmdOutcome where
  | launched (exitCode : Int)
  | launchError (msg : String)
deriving DecidableEq, Repr

/-- `cmd(x)` (build.py lines 21-26): runs the split command with inherited
streams and waits; any exception from launching is caught and printed.
Returns the lines it prints. The exit code of a launched process is
discarded, exactly as `p.wait()`'s result is. -/
def cmd (argv : List String) (outcome : CmdOutcome) : List String :=
  match argv, outcome with
  | _, .launched _ => []
  | _, .launchError m => [m]

/-- Python `str.split()`: split on runs of spaces, dropping empty pieces
(auxiliary recursion over the characters, accumulating the current word
reversed). -/
def splitWordsAux : List Char → List Char → List String
  | [], acc => if acc.isEmpty then [] else [String.mk acc.reverse]
  | c :: cs, acc =>
    if c = ' ' then
      if acc.isEmpty then splitWordsAux cs []
      else String.mk acc.reverse :: splitWordsAux cs []
    else splitWordsAux cs (c :: acc)

/-- Python `str.split()` on a string, as used by `cmd` (build.py line 23). -/
def splitWords (s : String) : List String := splitWordsAux s.data []

/-- The parsed command-line arguments relevant to `build`: the
`--debug-build` flag (build.py line 52). -/
structure BuildArgs where
  debug_build : Bool
deriving DecidableEq, Repr

/-- `'' if args.debug_build else '--release'` (build.py line 32). -/
def buildFlags (args : BuildArgs) : String :=
  if args.debug_build then "" else "--release"

/-- The f-string `f'cargo build {flags}'` (build.py line 33). -/
def buildCmdStr (args : BuildArgs) : String := "cargo build " ++ buildFlags args

/-- `lib(args)` (build.py lines 28-29): the expected source path of the
build artifact, `os.path.join('target', 'debug' if args.debug_build else
'release', LIB)`. -/
def lib (args : BuildArgs) (libName : String) : Path :=
  ["target", if args.debug_build then "debug" else "release", libName]

/-- The `try: os.mkdir(LUA) except FileExistsError: pass` step of `build`
(build.py lines 34-37); `os_mkdir` can only fail with `FileExistsError`,
which is swallowed, leaving the filesystem unchanged. -/
def ensureLua (fs : FS) : FS :=
  match os_mkdir fs LUA with
  | .ok fs1 => fs1
  | .error _ => fs

/-- The result of running one action: the external commands executed (as
argv lists, in order), the lines printed, and the final filesystem. -/
structure ActionResult where
  commands : List (List String)
  printed : List String
  fs : FS
deriving DecidableEq, Repr

/-- `build(args)` (build.py lines 31-41). `libName`/`outName` are the
platform constants `LIB` and `OUT` (the filename part); `fs` is the
filesystem state after the external `cargo build` command has returned
(that command's effect on the filesystem is external to the script);
`outcome` is how the subprocess launch went. The `os.rename` is wrapped in
`try: ... except OSError as e: print(f'{e}')`. -/
def build (libName outName : String) (args : BuildArgs) (outcome : CmdOutcome)
    (fs : FS) : ActionResult :=
  let argv := splitWords (buildCmdStr args)
  let launchMsgs := cmd argv outcome
  let fs1 := ensureLua fs
  match os_rename fs1 (lib args libName) (OUTpath outName) with
  | .ok fs2 => { commands := [argv], printed := launchMsgs, fs := fs2 }
  | .error e => { commands := [argv], printed := launchMsgs ++ [e.message], fs := fs1 }

/-- `clean(args)` (build.py lines 43-48): run `cargo clean`, then
`shutil.rmtree(LUA)` inside a bare `try: ... except: pass` which swallows
every exception. `rmErr` optionally injects an exception into the removal. -/
def clean (outcome : CmdOutcome) (fs : FS) (rmErr : Option OSErr) : ActionResult :=
  let argv := splitWords "cargo clean"
  let launchMsgs := cmd argv outcome
  let fs1 := match shutil_rmtree fs LUA rmErr with
    | .ok fs2 => fs2
    | .error _ => fs
  { commands := [argv], printed := launchMsgs, fs := fs1 }

/-- The usage line `f'{sys.argv[0]} {"|".join(actions.keys())}'`
(build.py line 57), printed via `print` (standard output). -/
def usageLine (argv0 : String) : String := argv0 ++ " build|clean"

/-- The observable result of one whole process invocation: lines printed to
standard output and to standard error, the exit code, the external commands
run, and the final filesystem. -/
structure ProcResult where
  stdoutLines : List String
  stderrLines : List String
  exitCode : Nat
  commands : List (List String)
  fs : FS
deriving DecidableEq, Repr

/-- The body of `main()` after argument parsing (build.py lines 55-61):
dispatch on the positional `action` through the `actions` dict; a `KeyError`
on an unrecognized action is caught and `usage()` prints the usage line via
`print` to standard output, after which the process exits with code 0.
All of the script's `print` calls go to standard output. -/
def main_run (argv0 : String) (libName outName : String) (args : BuildArgs)
    (action : String) (outcome : CmdOutcome) (fs : FS) (rmErr : Option OSErr) :
    ProcResult :=
  if action = "build" then
    let r := build libName outName args outcome fs
    { stdoutLines := r.printed, stderrLines := [], exitCode := 0,
      commands := r.commands, fs := r.fs }
  else if action = "clean" then
    let r := clean outcome fs rmErr
    { stdoutLines := r.printed, stderrLines := [], exitCode := 0,
      commands := r.commands, fs := r.fs }
  else
    { stdoutLines := [usageLine argv0], stderrLines := [], exitCode := 0,
      commands := [], fs := fs }

/-- One whole invocation of the script: the module-level platform
resolution (build.py lines 5-19) runs first — on an unrecognized platform
it prints `Unsupported platform` and exits with code 1 before any action —
then `main()` dispatches the action. -/
def program (p : Platform) (argv0 : String) (args : BuildArgs) (action : String)
    (outcome : CmdOutcome) (fs : FS) (rmErr : Option OSErr) : ProcResult :=
  match resolve p with
  | none =>
    { stdoutLines := ["Unsupported platform"], stderrLines := [], exitCode := 1,
      commands := [], fs := fs }
  | some (l, o) => main_run argv0 l o args action outcome fs rmErr

/-! ### Helper lemmas -/

/-- The mkdir step never changes the set of files. -/
theorem ensureLua_files (fs : FS) : (ensureLua fs).files = fs.files := by
  unfold ensureLua os_mkdir
  cases h : fs.hasDir LUA <;> simp [h]

/-- The mkdir step never changes whether a file exists. -/
theorem ensureLua_hasFile (fs : FS) (p : Path) :
    (ensureLua fs).hasFile p = fs.hasFile p := by
  simp [FS.hasFile, ensureLua_files]

/-- After the mkdir step the `lua` directory exists. -/
theorem ensureLua_hasDir_LUA (fs : FS) : (ensureLua fs).hasDir LUA = true := by
  unfold ensureLua os_mkdir
  cases h : fs.hasDir LUA
  · simp [h, FS.hasDir]
  · simp [h]

/-- When the `lua` directory already exists, the mkdir step leaves the
filesystem unchanged (`FileExistsError` swallowed). -/
theorem ensureLua_of_hasDir (fs : FS) (h : fs.hasDir LUA = true) :
    ensureLua fs = fs := by
  unfold ensureLua os_mkdir
  simp [h]

/-- Evaluation of `build` when the source artifact exists. -/
theorem build_ok (libName outName : String) (args : BuildArgs) (outcome : CmdOutcome)
    (fs : FS) (hsrc : fs.hasFile (lib args libName) = true) :
    build libName outName args outcome fs =
      { commands := [splitWords (buildCmdStr args)],
        printed := cmd (splitWords (buildCmdStr args)) outcome,
        fs := { files := OUTpath outName ::
                  (ensureLua fs).files.filter (fun q => decide (q ≠ lib args libName)),
                dirs := (ensureLua fs).dirs } } := by
  have h1 : (ensureLua fs).hasFile (lib args libName) = true := by
    rw [ensureLua_hasFile]; exact hsrc
  have h2 : (ensureLua fs).hasDir (parentDir (OUTpath outName)) = true :=
    ensureLua_hasDir_LUA fs
  unfold build os_rename
  simp [h1, h2]

/-- Evaluation of `build` when the source artifact is missing: the
`FileNotFoundError` from `os.rename` is caught and printed, and the files
are untouched. -/
theorem build_err (libName outName : String) (args : BuildArgs) (outcome : CmdOutcome)
    (fs : FS) (hsrc : fs.hasFile (lib args libName) = false) :
    build libName outName args outcome fs =
      { commands := [splitWords (buildCmdStr args)],
        printed := cmd (splitWords (buildCmdStr args)) outcome ++
          [OSErr.fileNotFound.message],
        fs := ensureLua fs } := by
  have h1 : (ensureLua fs).hasFile (lib args libName) = false := by
    rw [ensureLua_hasFile]; exact hsrc
  unfold build os_rename
  simp [h1]

/-- The command `build` runs does not depend on the filesystem or on how the
subprocess behaves. -/
theorem build_commands (libName outName : String) (args : BuildArgs)
    (outcome : CmdOutcome) (fs : FS) :
    (build libName outName args outcome fs).commands =
      [splitWords (buildCmdStr args)] := by
  unfold build
  cases h : os_rename (ensureLua fs) (lib args libName) (OUTpath outName) <;> simp [h]

/-! ### Claims -/

/-- C1: whenever a file exists at `target/release/<platform-artifact-filename>`
and the build mode is Release, the build action's install step produces the
file at the fixed destination path `lua/<platform-output-filename>` and the
file no longer exists at the source path (move semantics, not copy). -/
theorem c1_release_install_moves (l o : String) (args : BuildArgs)
    (outcome : CmdOutcome) (fs : FS)
    (hmode : args.debug_build = false)
    (hsrc : fs.hasFile (lib args l) = true) :
    lib args l = ["target", "release", l] ∧
    (build l o args outcome fs).fs.hasFile (OUTpath o) = true ∧
    (build l o args outcome fs).fs.hasFile (lib args l) = false := by
  have hne : OUTpath o ≠ lib args l := by simp [OUTpath, lib, LUA]
  refine ⟨by simp [lib, hmode], ?_, ?_⟩
  · rw [build_ok l o args outcome fs hsrc]
    simp [FS.hasFile]
  · rw [build_ok l o args outcome fs hsrc]
    simp only [FS.hasFile, decide_eq_false_iff_not, List.mem_cons, List.mem_filter,
      decide_eq_true_eq]
    rintro (h | ⟨-, h⟩)
    · exact hne h.symm
    · exact h rfl

/-- Witness for C1 on Linux in release mode, with the artifact present. -/
theorem c1_release_install_moves_witness :
    lib ⟨false⟩ "libnvim_repolink.so" = ["target", "release", "libnvim_repolink.so"] ∧
    (build "libnvim_repolink.so" "nvim_repolink.so" ⟨false⟩ (.launched 0)
        ⟨[["target", "release", "libnvim_repolink.so"]], []⟩).fs.hasFile
      (OUTpath "nvim_repolink.so") = true ∧
    (build "libnvim_repolink.so" "nvim_repolink.so" ⟨false⟩ (.launched 0)
        ⟨[["target", "release", "libnvim_repolink.so"]], []⟩).fs.hasFile
      (lib ⟨false⟩ "libnvim_repolink.so") = false :=
  c1_release_install_moves "libnvim_repolink.so" "nvim_repolink.so" ⟨false⟩
    (.launched 0) ⟨[["target", "release", "libnvim_repolink.so"]], []⟩
    rfl (by decide)

/-- C2: in Debug mode the artifact source path lies under `target/debug/`
and not under `target/release/`, and the external build command carries no
release flag, while Release mode adds `--release`. -/
theorem c2_debug_mode_paths_and_flag (l o : String) (outcome : CmdOutcome)
    (fs : FS) :
    underDir ["target", "debug"] (lib ⟨true⟩ l) = true ∧
    underDir ["target", "release"] (lib ⟨true⟩ l) = false ∧
    (build l o ⟨true⟩ outcome fs).commands = [["cargo", "build"]] ∧
    (build l o ⟨false⟩ outcome fs).commands = [["cargo", "build", "--release"]] := by
  refine ⟨rfl, rfl, ?_, ?_⟩
  · rw [build_commands]; decide
  · rw [build_commands]; decide

/-- C3: each of the three recognized platforms resolves to a non-empty
artifact filename and a non-empty destination path; any other platform
identifier makes the script print `Unsupported platform` and exit with
code 1 before any build or clean action is attempted (no command runs, the
filesystem is untouched). -/
theorem c3_platform_resolution :
    resolve .linux = some ("libnvim_repolink.so", "nvim_repolink.so") ∧
    resolve .win32 = some ("nvim_repolink.dll", "nvim_repolink.dll") ∧
    resolve .darwin = some ("libnvim_repolink.dylib", "nvim_repolink.so") ∧
    ("libnvim_repolink.so" ≠ "" ∧ "nvim_repolink.dll" ≠ "" ∧
      "libnvim_repolink.dylib" ≠ "") ∧
    ("nvim_repolink.so" ≠ "" ∧ "nvim_repolink.dll" ≠ "" ∧
      OUTpath "nvim_repolink.so" ≠ [] ∧ OUTpath "nvim_repolink.dll" ≠ []) ∧
    (∀ (s argv0 action : String) (args : BuildArgs) (outcome : CmdOutcome)
      (fs : FS) (rmErr : Option OSErr),
      resolve (.other s) = none ∧
      program (.other s) argv0 args action outcome fs rmErr =
        { stdoutLines := ["Unsupported platform"], stderrLines := [],
          exitCode := 1, commands := [], fs := fs }) := by
  refine ⟨rfl, rfl, rfl, by decide, by decide, ?_⟩
  intro s argv0 action args outcome fs rmErr
  exact ⟨rfl, rfl⟩

/-- C4: when the expected source artifact is absent at install time, the
build step prints the filesystem error (artifact not found) instead of
raising, the set of files is unchanged, and in particular nothing appears
at the destination path. -/
theorem c4_missing_artifact_soft_failure (l o : String) (args : BuildArgs)
    (outcome : CmdOutcome) (fs : FS)
    (hsrc : fs.hasFile (lib args l) = false) :
    (build l o args outcome fs).printed =
      cmd (splitWords (buildCmdStr args)) outcome ++ [OSErr.fileNotFound.message] ∧
    (build l o args outcome fs).fs.files = fs.files ∧
    (build l o args outcome fs).fs.hasFile (OUTpath o) = fs.hasFile (OUTpath o) := by
  rw [build_err l o args outcome fs hsrc]
  exact ⟨rfl, ensureLua_files fs, ensureLua_hasFile fs _⟩

/-- Witness for C4 on Linux in release mode, with an empty filesystem. -/
theorem c4_missing_artifact_soft_failure_witness :
    (build "libnvim_repolink.so" "nvim_repolink.so" ⟨false⟩ (.launched 0)
        ⟨[], []⟩).printed =
      cmd (splitWords (buildCmdStr ⟨false⟩)) (.launched 0) ++
        [OSErr.fileNotFound.message] ∧
    (build "libnvim_repolink.so" "nvim_repolink.so" ⟨false⟩ (.launched 0)
        ⟨[], []⟩).fs.files = (⟨[], []⟩ : FS).files ∧
    (build "libnvim_repolink.so" "nvim_repolink.so" ⟨false⟩ (.launched 0)
        ⟨[], []⟩).fs.hasFile (OUTpath "nvim_repolink.so") =
      FS.hasFile ⟨[], []⟩ (OUTpath "nvim_repolink.so") :=
  c4_missing_artifact_soft_failure "libnvim_repolink.so" "nvim_repolink.so"
    ⟨false⟩ (.launched 0) ⟨[], []⟩ (by decide)

/-- C5: a failure to launch the external build subprocess is printed (it is
the first printed line) and is non-fatal; the exit status of a launched
subprocess is never inspected; the resulting filesystem and the command run
are the same whatever the subprocess outcome — control always proceeds from
the build command to the install step. -/
theorem c5_subprocess_outcome_irrelevant (l o : String) (args : BuildArgs)
    (fs : FS) (o1 o2 : CmdOutcome) (m : String) (e1 e2 : Int) :
    (build l o args o1 fs).fs = (build l o args o2 fs).fs ∧
    (build l o args o1 fs).commands = (build l o args o2 fs).commands ∧
    build l o args (.launched e1) fs = build l o args (.launched e2) fs ∧
    (build l o args (.launchError m) fs).printed.head? = some m := by
  unfold build
  cases h : os_rename (ensureLua fs) (lib args l) (OUTpath o) <;> simp [h, cmd]

/-- A directory lies under itself, so `shutil.rmtree` removes the directory
entry too. -/
theorem underDir_refl (d : Path) : underDir d d = true := by
  induction d with
  | nil => rfl
  | cons a as ih => simp [underDir, ih]

/-- Evaluation of `clean` when no exception is injected and the `lua`
directory exists: `cargo clean` runs, then everything at or below `lua` is
removed. -/
theorem clean_ok (outcome : CmdOutcome) (fs : FS) (hdir : fs.hasDir LUA = true) :
    clean outcome fs none =
      { commands := [["cargo", "clean"]],
        printed := cmd ["cargo", "clean"] outcome,
        fs := { files := fs.files.filter (fun q => !underDir LUA q),
                dirs := fs.dirs.filter (fun q => !underDir LUA q) } } := by
  have hsplit : splitWords "cargo clean" = ["cargo", "clean"] := by decide
  unfold clean shutil_rmtree
  rw [hsplit]
  simp [hdir]

/-- On a supported platform, dispatching the `clean` action runs `clean`
and exits 0. -/
theorem program_clean (p : Platform) (l o : String) (hp : resolve p = some (l, o))
    (argv0 : String) (args : BuildArgs) (outcome : CmdOutcome) (fs : FS)
    (rmErr : Option OSErr) :
    program p argv0 args "clean" outcome fs rmErr =
      { stdoutLines := (clean outcome fs rmErr).printed, stderrLines := [],
        exitCode := 0, commands := (clean outcome fs rmErr).commands,
        fs := (clean outcome fs rmErr).fs } := by
  have hne : ("clean" : String) ≠ "build" := by decide
  unfold program
  rw [hp]
  unfold main_run
  simp [hne]

/-- C6: when the destination directory `lua` already exists before the
install step, the `FileExistsError` from `os.mkdir` is treated as success
(the directories are unchanged) and the install still succeeds: the
artifact appears at the destination and no error is printed. -/
theorem c6_existing_destination_dir_ok (l o : String) (args : BuildArgs)
    (outcome : CmdOutcome) (fs : FS)
    (hdir : fs.hasDir LUA = true) (hsrc : fs.hasFile (lib args l) = true) :
    (build l o args outcome fs).fs.hasFile (OUTpath o) = true ∧
    (build l o args outcome fs).fs.dirs = fs.dirs ∧
    (build l o args outcome fs).printed = cmd (splitWords (buildCmdStr args)) outcome := by
  rw [build_ok l o args outcome fs hsrc]
  exact ⟨by simp [FS.hasFile], by simp [ensureLua_of_hasDir fs hdir], rfl⟩

/-- Witness for C6 on Linux in release mode with `lua` already present. -/
theorem c6_existing_destination_dir_ok_witness :
    (build "libnvim_repolink.so" "nvim_repolink.so" ⟨false⟩ (.launched 0)
        ⟨[["target", "release", "libnvim_repolink.so"]], [["lua"]]⟩).fs.hasFile
      (OUTpath "nvim_repolink.so") = true ∧
    (build "libnvim_repolink.so" "nvim_repolink.so" ⟨false⟩ (.launched 0)
        ⟨[["target", "release", "libnvim_repolink.so"]], [["lua"]]⟩).fs.dirs =
      (⟨[["target", "release", "libnvim_repolink.so"]], [["lua"]]⟩ : FS).dirs ∧
    (build "libnvim_repolink.so" "nvim_repolink.so" ⟨false⟩ (.launched 0)
        ⟨[["target", "release", "libnvim_repolink.so"]], [["lua"]]⟩).printed =
      cmd (splitWords (buildCmdStr ⟨false⟩)) (.launched 0) :=
  c6_existing_destination_dir_ok "libnvim_repolink.so" "nvim_repolink.so" ⟨false⟩
    (.launched 0) ⟨[["target", "release", "libnvim_repolink.so"]], [["lua"]]⟩
    (by decide) (by decide)

/-- C7 counterexample: on Linux — one of the two platforms where the claim
asserts that clean removes only a single file — clean in fact removes the
whole `lua` directory, including an unrelated file `lua/extra.txt`. -/
theorem c7_counterexample :
    (program .linux "./build.py" ⟨false⟩ "clean" (.launched 0)
        ⟨[["lua", "nvim_repolink.so"], ["lua", "extra.txt"]], [["lua"]]⟩
        none).fs.hasFile ["lua", "extra.txt"] = false ∧
    (program .linux "./build.py" ⟨false⟩ "clean" (.launched 0)
        ⟨[["lua", "nvim_repolink.so"], ["lua", "extra.txt"]], [["lua"]]⟩
        none).fs.hasDir ["lua"] = false := by decide

/-- C7 amended: on every supported platform, the clean action first invokes
the external toolchain's clean subcommand and then removes the whole
destination directory `lua` and everything beneath it — the same
whole-directory removal on all three platforms. -/
theorem c7_clean_removes_whole_directory (p : Platform) (l o : String)
    (hp : resolve p = some (l, o)) (argv0 : String) (args : BuildArgs)
    (outcome : CmdOutcome) (fs : FS) (hdir : fs.hasDir LUA = true) :
    (program p argv0 args "clean" outcome fs none).commands = [["cargo", "clean"]] ∧
    (program p argv0 args "clean" outcome fs none).fs.hasDir LUA = false ∧
    (program p argv0 args "clean" outcome fs none).fs.files.filter
      (fun q => underDir LUA q) = [] := by
  rw [program_clean p l o hp argv0 args outcome fs none, clean_ok outcome fs hdir]
  refine ⟨rfl, ?_, ?_⟩
  · simp [FS.hasDir, underDir_refl]
  · simp

/-- Witness for C7 amended, on Linux with an installed artifact present. -/
theorem c7_clean_removes_whole_directory_witness :
    (program .linux "./build.py" ⟨false⟩ "clean" (.launched 0)
        ⟨[["lua", "nvim_repolink.so"]], [["lua"]]⟩ none).commands =
      [["cargo", "clean"]] ∧
    (program .linux "./build.py" ⟨false⟩ "clean" (.launched 0)
        ⟨[["lua", "nvim_repolink.so"]], [["lua"]]⟩ none).fs.hasDir LUA = false ∧
    (program .linux "./build.py" ⟨false⟩ "clean" (.launched 0)
        ⟨[["lua", "nvim_repolink.so"]], [["lua"]]⟩ none).fs.files.filter
      (fun q => underDir LUA q) = [] :=
  c7_clean_removes_whole_directory .linux "libnvim_repolink.so" "nvim_repolink.so"
    rfl "./build.py" ⟨false⟩ (.launched 0) ⟨[["lua", "nvim_repolink.so"]], [["lua"]]⟩
    (by decide)

/-- C8 counterexample: with an unrecognized action, nothing is printed to
the error stream — the usage line goes to standard output (the claim says
it goes to the error stream). -/
theorem c8_counterexample :
    (program .linux "./build.py" ⟨false⟩ "install" (.launched 0) ⟨[], []⟩
        none).stderrLines = [] ∧
    (program .linux "./build.py" ⟨false⟩ "install" (.launched 0) ⟨[], []⟩
        none).stdoutLines = ["./build.py build|clean"] ∧
    (program .linux "./build.py" ⟨false⟩ "install" (.launched 0) ⟨[], []⟩
        none).exitCode = 0 := by decide

/-- C8 amended: on a supported platform, an invocation whose positional
action is neither `build` nor `clean` prints the usage line to standard
output (not the error stream), runs no action (no command, filesystem
untouched), and exits with code 0 since the argument parser accepted the
input. -/
theorem c8_unrecognized_action_usage (p : Platform) (l o : String)
    (hp : resolve p = some (l, o)) (argv0 action : String) (args : BuildArgs)
    (outcome : CmdOutcome) (fs : FS) (rmErr : Option OSErr)
    (h1 : action ≠ "build") (h2 : action ≠ "clean") :
    program p argv0 args action outcome fs rmErr =
      { stdoutLines := [usageLine argv0], stderrLines := [], exitCode := 0,
        commands := [], fs := fs } := by
  unfold program
  rw [hp]
  unfold main_run
  simp [h1, h2]

/-- Witness for C8 amended at action `install` on Linux. -/
theorem c8_unrecognized_action_usage_witness :
    program .linux "./build.py" ⟨false⟩ "install" (.launched 0) ⟨[], []⟩ none =
      { stdoutLines := [usageLine "./build.py"], stderrLines := [], exitCode := 0,
        commands := [], fs := ⟨[], []⟩ } :=
  c8_unrecognized_action_usage .linux "libnvim_repolink.so" "nvim_repolink.so"
    rfl "./build.py" "install" ⟨false⟩ (.launched 0) ⟨[], []⟩ none
    (by decide) (by decide)

/-- C9: on every supported platform the destination path is nested under
the `lua` directory; the installed filename differs from the artifact
filename on macOS (`libnvim_repolink.dylib` becomes `nvim_repolink.so`) and
on Linux (`libnvim_repolink.so` becomes `nvim_repolink.so`), and only on
Windows are the two names equal (`nvim_repolink.dll` preserved). -/
theorem c9_destination_filenames :
    resolve .linux = some ("libnvim_repolink.so", "nvim_repolink.so") ∧
    resolve .win32 = some ("nvim_repolink.dll", "nvim_repolink.dll") ∧
    resolve .darwin = some ("libnvim_repolink.dylib", "nvim_repolink.so") ∧
    underDir LUA (OUTpath "nvim_repolink.so") = true ∧
    underDir LUA (OUTpath "nvim_repolink.dll") = true ∧
    "libnvim_repolink.dylib" ≠ "nvim_repolink.so" ∧
    "libnvim_repolink.so" ≠ "nvim_repolink.so" ∧
    (resolve .win32).map Prod.fst = (resolve .win32).map Prod.snd := by decide

/-- C10: the clean action's removal of the destination directory swallows
every injected exception — `FileNotFoundError`, `PermissionError`, any
`OSError` — leaving the filesystem unchanged, printing nothing beyond what
the subprocess launch printed, and returning normally after `cargo clean`. -/
theorem c10_clean_swallows_every_exception (outcome : CmdOutcome) (fs : FS)
    (e : OSErr) :
    (clean outcome fs (some e)).fs = fs ∧
    (clean outcome fs (some e)).printed = cmd ["cargo", "clean"] outcome ∧
    (clean outcome fs (some e)).commands = [["cargo", "clean"]] := by
  have hsplit : splitWords "cargo clean" = ["cargo", "clean"] := by decide
  unfold clean shutil_rmtree
  rw [hsplit]
  exact ⟨rfl, rfl, rfl⟩

end BuildPy
